import Mathlib

/-!
Shallow embedding of `src/visor/db.go` from the skycoin repository: the
database corruption check (`CheckDatabase`), the history-index rebuild
(`rebuildCorruptDB`), and the quarantine path
(`ResetCorruptDB` / `handleCorruptDB` / `moveCorruptDB` / `makeCorruptDBPath`
/ `shaFileID` / `OpenDB`), together with the concurrent fault tracker
(`corruptedBlocks`).

Go errors are values carrying a dynamic type; the source dispatches on that
type with `switch err.(type)`.  We embed the error types that the source
distinguishes as constructors of one inductive.  External collaborators
(the bolt storage engine, the blockchain accessor, the historydb component)
are not part of the source file; following their interfaces they are
modelled by outcome parameters (possible injected failures) and, for the
filesystem, by an association list from path to byte contents.
-/

namespace SkycoinDB

/-- Go error values as the source's `switch err.(type)` distinguishes them:
`errMissingSignature` embeds `blockdb.ErrMissingSignature`,
`errHistoryDBCorrupted` embeds `historydb.ErrHistoryDBCorrupted`,
`errCorruptDB` embeds the wrapper type `ErrCorruptDB` defined in the file,
`ioError` stands for operating-system I/O errors, and `newError` for errors
built with `errors.New` / `fmt.Errorf`. -/
inductive GoError : Type
  | errMissingSignature (msg : String)
  | errHistoryDBCorrupted (msg : String)
  | errCorruptDB (inner : GoError)
  | ioError (msg : String)
  | newError (msg : String)
  deriving DecidableEq, Repr

/-- Message of an error value, as `%v` formatting would render it. -/
def GoError.msg : GoError → String
  | .errMissingSignature m => m
  | .errHistoryDBCorrupted m => m
  | .errCorruptDB e => e.msg
  | .ioError m => m
  | .newError m => m

deriving instance DecidableEq for Except

/-! ## SHA-1 (crypto/sha1), executable, over byte lists -/

/-- Truncation to a 32-bit word, the wrap-around of Go's `uint32`. -/
def w32 (n : Nat) : Nat := n % 4294967296

/-- Left rotation of a 32-bit word by `s` bits. -/
def rotl32 (s n : Nat) : Nat := w32 ((n <<< s) + (n >>> (32 - s)))

/-- SHA-1 round function, by round index. -/
def sha1F (i b c d : Nat) : Nat :=
  if i < 20 then (b &&& c) ||| ((b ^^^ 4294967295) &&& d)
  else if i < 40 then b ^^^ c ^^^ d
  else if i < 60 then (b &&& c) ||| (b &&& d) ||| (c &&& d)
  else b ^^^ c ^^^ d

/-- SHA-1 round constant, by round index. -/
def sha1K (i : Nat) : Nat :=
  if i < 20 then 1518500249
  else if i < 40 then 1859775393
  else if i < 60 then 2400959708
  else 3395469782

/-- Big-endian 8-byte encoding of a 64-bit length. -/
def be64 (n : Nat) : List Nat :=
  [(n >>> 56) &&& 255, (n >>> 48) &&& 255, (n >>> 40) &&& 255, (n >>> 32) &&& 255,
   (n >>> 24) &&& 255, (n >>> 16) &&& 255, (n >>> 8) &&& 255, n &&& 255]

/-- Big-endian 4-byte encoding of a 32-bit word. -/
def be32 (n : Nat) : List Nat :=
  [(n >>> 24) &&& 255, (n >>> 16) &&& 255, (n >>> 8) &&& 255, n &&& 255]

/-- SHA-1 message padding: a 1 bit, zeros to 56 mod 64, then the bit length. -/
def sha1Pad (msg : List Nat) : List Nat :=
  msg ++ [128] ++ List.replicate ((119 - msg.length % 64) % 64) 0 ++ be64 (msg.length * 8)

/-- Group bytes into big-endian 32-bit words. -/
def bytesToWords : List Nat → List Nat
  | a :: b :: c :: d :: rest => (((a * 256 + b) * 256 + c) * 256 + d) :: bytesToWords rest
  | _ => []

/-- Extend the 16 chunk words by `fuel` further schedule words. -/
def sha1Extend (w : List Nat) : Nat → List Nat
  | 0 => w
  | fuel + 1 =>
    let i := w.length
    sha1Extend
      (w ++ [rotl32 1 ((w.getD (i - 3) 0) ^^^ (w.getD (i - 8) 0) ^^^
                       (w.getD (i - 14) 0) ^^^ (w.getD (i - 16) 0))]) fuel

/-- The 80 compression rounds over the schedule words. -/
def sha1Rounds : Nat → List Nat → Nat × Nat × Nat × Nat × Nat → Nat × Nat × Nat × Nat × Nat
  | _, [], st => st
  | i, wi :: rest, (a, b, c, d, e) =>
    sha1Rounds (i + 1) rest
      (w32 (rotl32 5 a + sha1F i b c d + e + sha1K i + wi), a, rotl32 30 b, c, d)

/-- Process one 64-byte chunk into the running hash state. -/
def sha1Chunk (h : Nat × Nat × Nat × Nat × Nat) (chunk : List Nat) :
    Nat × Nat × Nat × Nat × Nat :=
  let ws := sha1Extend (bytesToWords chunk) 64
  let st := sha1Rounds 0 ws h
  (w32 (h.1 + st.1), w32 (h.2.1 + st.2.1), w32 (h.2.2.1 + st.2.2.1),
   w32 (h.2.2.2.1 + st.2.2.2.1), w32 (h.2.2.2.2 + st.2.2.2.2))

/-- Fold all 64-byte chunks of a padded message into the hash state. -/
def sha1Chunks (h : Nat × Nat × Nat × Nat × Nat) (bytes : List Nat) :
    Nat → Nat × Nat × Nat × Nat × Nat
  | 0 => h
  | fuel + 1 =>
    match bytes with
    | [] => h
    | _ => sha1Chunks (sha1Chunk h (bytes.take 64)) (bytes.drop 64) fuel

/-- SHA-1 digest (20 bytes) of a byte list. -/
def sha1 (msg : List Nat) : List Nat :=
  let p := sha1Pad msg
  let h := sha1Chunks (1732584193, 4023233417, 2562383102, 271733878, 3285377520)
    p (p.length / 64 + 1)
  be32 h.1 ++ be32 h.2.1 ++ be32 h.2.2.1 ++ be32 h.2.2.2.1 ++ be32 h.2.2.2.2

/-! ## Base64 (encoding/base64), unpadded -/

/-- The standard base64 alphabet, used by Go's `base64.RawStdEncoding`. -/
def b64StdAlphabet : List Char :=
  "ABCDEFGHIJKLMNOPQRSTUVWXYZabcdefghijklmnopqrstuvwxyz0123456789+/".data

/-- Modelled from the spec: the URL/path-safe base64 alphabet the spec names
(`base64 (URL/path-safe, no padding)`), used only to compare against the
encoding the source actually uses. -/
def b64URLAlphabet : List Char :=
  "ABCDEFGHIJKLMNOPQRSTUVWXYZabcdefghijklmnopqrstuvwxyz0123456789-_".data

/-- Unpadded base64 encoding of a byte list over a given alphabet. -/
def b64Chars (alpha : List Char) : List Nat → List Char
  | a :: b :: c :: rest =>
    let n := (a * 256 + b) * 256 + c
    alpha.getD ((n >>> 18) &&& 63) ' ' :: alpha.getD ((n >>> 12) &&& 63) ' ' ::
    alpha.getD ((n >>> 6) &&& 63) ' ' :: alpha.getD (n &&& 63) ' ' :: b64Chars alpha rest
  | [a, b] =>
    let n := a * 256 + b
    [alpha.getD ((n >>> 10) &&& 63) ' ', alpha.getD ((n >>> 4) &&& 63) ' ',
     alpha.getD ((n <<< 2) &&& 63) ' ']
  | [a] => [alpha.getD ((a >>> 2) &&& 63) ' ', alpha.getD ((a <<< 4) &&& 63) ' ']
  | [] => []

/-- Go's `base64.RawStdEncoding.EncodeToString`: standard alphabet, no padding. -/
def base64RawStd (bs : List Nat) : String := String.mk (b64Chars b64StdAlphabet bs)

/-- Modelled from the spec: `base64.RawURLEncoding`-style encoding (URL/path-safe
alphabet, no padding), the encoding the spec claims is used. -/
def base64RawURL (bs : List Nat) : String := String.mk (b64Chars b64URLAlphabet bs)

/-! ## Paths (path/filepath) -/

/-- Go's `filepath.Split`: the directory part up to and including the final
slash, and the file name after it. -/
def splitPath (p : String) : String × String :=
  let cs := p.data
  let f := (cs.reverse.takeWhile (fun c => c ≠ '/')).reverse
  (String.mk (cs.take (cs.length - f.length)), String.mk f)

/-- Go's `filepath.Join` on a directory (as produced by `filepath.Split`, so
either empty or slash-terminated) and a file name. -/
def joinPath (d f : String) : String :=
  if d = "" then f
  else if d.data.getLast? = some '/' then d ++ f
  else d ++ "/" ++ f

/-! ## Filesystem and store-handle model

The storage engine and the operating-system filesystem are collaborators
outside this source file.  Modelled from the spec: the filesystem is a map
from path to byte contents (an association list); `os.Rename`, `Close` and
`bolt.Open` may fail, which we represent by injectable failure outcomes. -/

/-- A filesystem: association list from path to file contents (bytes). -/
abbrev FS := List (String × List Nat)

/-- Contents of the file at a path, if present. -/
def fsLookup : FS → String → Option (List Nat)
  | [], _ => none
  | (q, c) :: rest, p => if q = p then some c else fsLookup rest p

/-- Remove the file at a path. -/
def fsErase (fs : FS) (p : String) : FS :=
  fs.filter (fun e => e.1 ≠ p)

/-- Create or overwrite the file at a path. -/
def fsInsert (fs : FS) (p : String) (c : List Nat) : FS :=
  (p, c) :: fsErase fs p

/-- Contents bolt gives a freshly created, empty store file. -/
def emptyStore : List Nat := []

/-- A `dbutil.DB` handle: its file path and read-only mode flag. -/
structure DBHandle where
  path : String
  readOnly : Bool
  deriving DecidableEq, Repr

/-- Filesystem-level steps the quarantine path performs, in order:
closing the handle, digesting the file, renaming it, opening a new store. -/
inductive FsEv : Type
  | closeDB
  | digest
  | renameFile
  | openDB
  deriving DecidableEq, Repr

/-- Modelled from the spec: `os.Rename` moves the file, failing on an injected
I/O error or when the source file does not exist. -/
def osRename (fs : FS) (oldPath newPath : String) (renameErr : Option GoError) :
    Except GoError FS :=
  match renameErr with
  | some e => Except.error e
  | none =>
    match fsLookup fs oldPath with
    | none => Except.error (GoError.ioError ("rename " ++ oldPath))
    | some c => Except.ok (fsInsert (fsErase fs oldPath) newPath c)

/-! ## The embedded source functions of `visor/db.go` -/

/-- Embeds `shaFileID`: open the file, stream its full contents through SHA-1,
and return the unpadded standard-alphabet base64 encoding of the first 8
digest bytes.  Open failure (file absent) is the modelled I/O failure of the
read path. -/
def shaFileID (fs : FS) (dbPath : String) : Except GoError String :=
  match fsLookup fs dbPath with
  | none => Except.error (GoError.ioError ("open " ++ dbPath))
  | some contents => Except.ok (base64RawStd ((sha1 contents).take 8))

/-- Modelled from the spec: the fingerprint as the spec words it, with the
URL/path-safe base64 alphabet instead of the standard one. -/
def shaFileIDSpec (fs : FS) (dbPath : String) : Except GoError String :=
  match fsLookup fs dbPath with
  | none => Except.error (GoError.ioError ("open " ++ dbPath))
  | some contents => Except.ok (base64RawURL ((sha1 contents).take 8))

/-- Embeds `makeCorruptDBPath`: builds `$FILE.corrupt.$HASH` next to the
original file, where `$HASH` is `shaFileID` of the file. -/
def makeCorruptDBPath (fs : FS) (dbPath : String) : Except GoError String :=
  match shaFileID fs dbPath with
  | Except.error e => Except.error e
  | Except.ok dbFileHash =>
    let s := splitPath dbPath
    Except.ok (joinPath s.1 (s.2 ++ ".corrupt." ++ dbFileHash))

/-- Embeds `moveCorruptDB`: compute the quarantine path, then `os.Rename` the
file onto it; on either failure the error is returned and the filesystem is
unchanged.  Also records the filesystem steps taken. -/
def moveCorruptDB (fs : FS) (dbPath : String) (renameErr : Option GoError) :
    Except GoError (String × FS) × List FsEv :=
  match makeCorruptDBPath fs dbPath with
  | Except.error e => (Except.error e, [FsEv.digest])
  | Except.ok newDBPath =>
    match osRename fs dbPath newDBPath renameErr with
    | Except.error e => (Except.error e, [FsEv.digest, FsEv.renameFile])
    | Except.ok fs2 => (Except.ok (newDBPath, fs2), [FsEv.digest, FsEv.renameFile])

/-- Embeds `OpenDB`: `bolt.Open` at the path with the given mode; bolt creates
an empty store file when none exists.  `openErr` injects an open failure,
which the source wraps with the message prefix shown. -/
def OpenDB (fs : FS) (dbFile : String) (readOnly : Bool) (openErr : Option GoError) :
    Except GoError (DBHandle × FS) :=
  match openErr with
  | some e => Except.error (GoError.newError ("Open boltdb failed, " ++ e.msg))
  | none =>
    match fsLookup fs dbFile with
    | some _ => Except.ok ({ path := dbFile, readOnly := readOnly }, fs)
    | none => Except.ok ({ path := dbFile, readOnly := readOnly }, fsInsert fs dbFile emptyStore)

/-- Injectable collaborator failures for the quarantine path: the handle's
`Close` and the filesystem rename and store open. -/
structure HandleEnv where
  closeErr : Option GoError
  renameErr : Option GoError
  openErr : Option GoError
  deriving Repr

/-- Embeds `handleCorruptDB`: record the handle's mode and path, close the
handle, move the corrupted file aside via `moveCorruptDB`, and open a fresh
store at the original path with the original mode.  Each failure aborts with
the wrapped message the source formats. -/
def handleCorruptDB (db : DBHandle) (fs : FS) (env : HandleEnv) :
    Option DBHandle × Option GoError × FS × List FsEv :=
  let dbReadOnly := db.readOnly
  let dbPath := db.path
  match env.closeErr with
  | some e =>
    (none, some (GoError.newError ("Failed to close db: " ++ e.msg)), fs, [FsEv.closeDB])
  | none =>
    match moveCorruptDB fs dbPath env.renameErr with
    | (Except.error e, evs) =>
      (none, some (GoError.newError ("Failed to copy corrupted db: " ++ e.msg)), fs,
       FsEv.closeDB :: evs)
    | (Except.ok r, evs) =>
      match OpenDB r.2 dbPath dbReadOnly env.openErr with
      | Except.error e => (none, some e, r.2, FsEv.closeDB :: evs ++ [FsEv.openDB])
      | Except.ok h => (some h.1, none, h.2, FsEv.closeDB :: evs ++ [FsEv.openDB])

/-! ## CheckDatabase

`NewBlockchain`, `bc.WalkChain` and the historydb verification are
collaborators outside this file, so their outcomes are parameters of the
embedding (`CheckEnv`).  `CheckDatabase` itself is the dispatch the source
performs on those outcomes.  We also record which collaborator operations are
reached, to state frame claims. -/

/-- Collaborator outcomes observed by one `CheckDatabase` run.
`viewErr` is the error returned by the preliminary `db.View` transaction
itself (when it fails, the closure never ran and the `blocksBktExist`
variable keeps its zero value `false`); `blocksBktExist` is what the closure
observes when it does run; `walkResult` is what `bc.WalkChain` returns
(`none` for a clean walk, or the first typed failure); `rebuildResult` is
what `rebuildCorruptDB` would return if invoked. -/
structure CheckEnv where
  viewErr : Option GoError
  blocksBktExist : Bool
  newBlockchainErr : Option GoError
  walkResult : Option GoError
  rebuildResult : Option GoError
  deriving Repr

/-- Operations `CheckDatabase` can reach, in order of occurrence. -/
inductive CkEv : Type
  | viewTx
  | newBlockchain
  | walkChain
  | rebuild
  deriving DecidableEq, Repr

/-- Embeds `CheckDatabase` (lines 63-118 of the source).  Note the source
DISCARDS the error returned by `db.View`; when that transaction fails the
local `blocksBktExist` stays `false` and the function returns `nil`.  The
history-corruption branch launches `rebuildCorruptDB` on a goroutine whose
result goes into a one-slot buffered channel; `wg.Wait()` returns only after
the goroutine's deferred `Done`, which runs after the buffered send, so at
the `select` the channel already holds the rebuild's result and the
`default` branch is unreachable — the embedding renders the slot as filled. -/
def CheckDatabase (env : CheckEnv) : Option GoError × List CkEv :=
  let blocksBktExist := if env.viewErr.isSome then false else env.blocksBktExist
  if !blocksBktExist then (none, [CkEv.viewTx])
  else
    match env.newBlockchainErr with
    | some e => (some e, [CkEv.viewTx, CkEv.newBlockchain])
    | none =>
      match env.walkResult with
      | none => (none, [CkEv.viewTx, CkEv.newBlockchain, CkEv.walkChain])
      | some (GoError.errMissingSignature m) =>
        (some (GoError.errCorruptDB (GoError.errMissingSignature m)),
         [CkEv.viewTx, CkEv.newBlockchain, CkEv.walkChain])
      | some (GoError.errHistoryDBCorrupted _) =>
        let errC : Option (Option GoError) := some env.rebuildResult
        match errC with
        | some err => (err, [CkEv.viewTx, CkEv.newBlockchain, CkEv.walkChain, CkEv.rebuild])
        | none => (none, [CkEv.viewTx, CkEv.newBlockchain, CkEv.walkChain, CkEv.rebuild])
      | some e => (some e, [CkEv.viewTx, CkEv.newBlockchain, CkEv.walkChain])

/-! ## rebuildCorruptDB -/

/-- Collaborator state and outcomes for one rebuild: the canonical chain
(block bodies by sequence number, so the head sequence is `chain.length - 1`),
injectable failures of `history.Erase`, `bc.HeadSeq`,
`bc.GetSignedBlockBySeq` and `history.ParseBlock`, and the cancellation
signal (`quit i` is whether the `select` at loop step `i` sees the channel
closed). -/
structure RebuildEnv where
  chain : List Nat
  eraseErr : Option GoError
  headSeqErr : Option GoError
  fetchErr : Nat → Option GoError
  parseErr : Nat → Option GoError
  quit : Nat → Bool

/-- Operations the rebuild transaction body performs, in order. -/
inductive REv : Type
  | erase
  | headSeq
  | quitCheck (i : Nat)
  | fetch (i : Nat)
  | parse (i : Nat)
  deriving DecidableEq, Repr

/-- The loop `for i := 0; i <= headSeq; i++` of `rebuildCorruptDB`, with
`fuel = headSeq + 1 - i` remaining iterations: check the quit channel and
return `nil` early if signaled, else fetch the signed block at `i` and feed
it to `history.ParseBlock`, which appends it to the derived index. -/
def rebuildLoop (env : RebuildEnv) (hist : List Nat) (i : Nat) :
    Nat → List Nat × Option GoError × List REv
  | 0 => (hist, none, [])
  | fuel + 1 =>
    if env.quit i then (hist, none, [REv.quitCheck i])
    else
      match env.fetchErr i with
      | some e => (hist, some e, [REv.quitCheck i, REv.fetch i])
      | none =>
        match env.chain[i]? with
        | none =>
          (hist, some (GoError.newError "block does not exist"),
           [REv.quitCheck i, REv.fetch i])
        | some b =>
          match env.parseErr i with
          | some e => (hist, some e, [REv.quitCheck i, REv.fetch i, REv.parse i])
          | none =>
            match rebuildLoop env (hist ++ [b]) (i + 1) fuel with
            | (h, r, evs) =>
              (h, r, REv.quitCheck i :: REv.fetch i :: REv.parse i :: evs)

/-- The body of the `db.Update` closure in `rebuildCorruptDB`: erase the
whole index, read the head sequence (failing with
`head block does not exist` when the chain has no head), then run the loop
over sequences `0..headSeq`. -/
def rebuildBody (env : RebuildEnv) (hist0 : List Nat) :
    List Nat × Option GoError × List REv :=
  match env.eraseErr with
  | some e => (hist0, some e, [REv.erase])
  | none =>
    match env.headSeqErr with
    | some e => ([], some e, [REv.erase, REv.headSeq])
    | none =>
      if env.chain.isEmpty then
        ([], some (GoError.newError "head block does not exist"), [REv.erase, REv.headSeq])
      else
        match rebuildLoop env [] 0 ((env.chain.length - 1) + 1) with
        | (h, r, evs) => (h, r, REv.erase :: REv.headSeq :: evs)

/-- Embeds `rebuildCorruptDB`: the body runs inside ONE `db.Update` write
transaction, so when the body returns an error the transaction rolls back
(the index is left as it was), and when it returns `nil` — including the
early return on cancellation — the transaction commits the body's state. -/
def rebuildCorruptDB (env : RebuildEnv) (hist0 : List Nat) :
    List Nat × Option GoError × List REv :=
  match rebuildBody env hist0 with
  | (h, none, evs) => (h, none, evs)
  | (_, some e, evs) => (hist0, some e, evs)

/-! ## ResetCorruptDB -/

/-- All collaborator outcomes for one `ResetCorruptDB` run. -/
structure ResetEnv where
  check : CheckEnv
  handle : HandleEnv

/-- Embeds `ResetCorruptDB`: run `CheckDatabase`; on `nil` return the original
handle; on an `ErrCorruptDB` result quarantine via `handleCorruptDB`; on any
other error return `(nil, err)`.  The filesystem is threaded through so the
frame effects are visible. -/
def ResetCorruptDB (db : DBHandle) (fs : FS) (env : ResetEnv) :
    Option DBHandle × Option GoError × FS × List FsEv :=
  match (CheckDatabase env.check).1 with
  | none => (some db, none, fs, [])
  | some (GoError.errCorruptDB _) =>
    handleCorruptDB db fs env.handle
  | some e => (none, some e, fs, [])

/-! ## corruptedBlocks -/

/-- Embeds `corruptedBlocks`: the Go map `map[uint64]struct{}` is a finite
set of sequence numbers; we carry its key set as a duplicate-free list in
insertion order (the mutex only serializes concurrent access and has no
sequential meaning). -/
structure corruptedBlocks where
  v : List Nat
  deriving DecidableEq, Repr

/-- Embeds `newCorruptedBlocks`: the empty tracker. -/
def newCorruptedBlocks : corruptedBlocks := ⟨[]⟩

/-- Embeds `Store`: `cb.v[seq] = struct{}{}` adds the key; adding a present
key leaves the map unchanged. -/
def corruptedBlocks.Store (cb : corruptedBlocks) (seq : Nat) : corruptedBlocks :=
  if seq ∈ cb.v then cb else ⟨cb.v ++ [seq]⟩

/-- Embeds `BlockSeqs`: the keys of the map, one per stored sequence. -/
def corruptedBlocks.BlockSeqs (cb : corruptedBlocks) : List Nat := cb.v

/-- A finite sequence of `Store` calls on a tracker. -/
def storeAll (cb : corruptedBlocks) (l : List Nat) : corruptedBlocks :=
  l.foldl corruptedBlocks.Store cb

/-- The trace of `n` completed iterations of the rebuild loop starting at
sequence `i`: quit-check, block fetch and index-builder step for each
sequence, in strictly increasing order. -/
def stepsTrace (i : Nat) : Nat → List REv
  | 0 => []
  | n + 1 => REv.quitCheck i :: REv.fetch i :: REv.parse i :: stepsTrace (i + 1) n

/-! ## Helper lemmas -/

theorem mem_Store (cb : corruptedBlocks) (a x : Nat) :
    x ∈ (cb.Store a).v ↔ x ∈ cb.v ∨ x = a := by
  unfold corruptedBlocks.Store
  by_cases h : a ∈ cb.v
  · simp only [if_pos h]
    exact ⟨Or.inl, fun hx => hx.elim id fun hxa => hxa ▸ h⟩
  · simp [if_neg h]

theorem nodup_Store (cb : corruptedBlocks) (a : Nat) (h : cb.v.Nodup) :
    (cb.Store a).v.Nodup := by
  unfold corruptedBlocks.Store
  by_cases ha : a ∈ cb.v
  · simpa [if_pos ha]
  · simp [if_neg ha, List.nodup_append, h, ha]

theorem storeAll_mem (l : List Nat) : ∀ (cb : corruptedBlocks) (x : Nat),
    x ∈ (storeAll cb l).v ↔ x ∈ cb.v ∨ x ∈ l := by
  induction l with
  | nil => intro cb x; simp [storeAll]
  | cons a t ih =>
    intro cb x
    have : storeAll cb (a :: t) = storeAll (cb.Store a) t := rfl
    rw [this, ih (cb.Store a) x, mem_Store]
    simp [or_assoc]

theorem storeAll_nodup (l : List Nat) : ∀ cb : corruptedBlocks, cb.v.Nodup →
    (storeAll cb l).v.Nodup := by
  induction l with
  | nil => intro cb h; simpa [storeAll]
  | cons a t ih => intro cb h; exact ih (cb.Store a) (nodup_Store cb a h)

theorem string_data_append (s t : String) : (s ++ t).data = s.data ++ t.data := by
  cases s
  cases t
  rfl

theorem string_append_cancel_left {s a b : String} (h : s ++ a = s ++ b) : a = b := by
  have hd : s.data ++ a.data = s.data ++ b.data := by
    have h2 := congrArg String.data h
    rwa [string_data_append, string_data_append] at h2
  have h3 : a.data = b.data := List.append_cancel_left hd
  cases a
  cases b
  exact congrArg String.mk h3

theorem joinPath_suffix_inj (d f h1 h2 : String) :
    joinPath d (f ++ ".corrupt." ++ h1) = joinPath d (f ++ ".corrupt." ++ h2) ↔ h1 = h2 := by
  constructor
  · intro h
    unfold joinPath at h
    by_cases hd : d = ""
    · simp only [if_pos hd] at h
      exact string_append_cancel_left h
    · by_cases hl : d.data.getLast? = some '/'
      · simp only [if_neg hd, if_pos hl] at h
        exact string_append_cancel_left (string_append_cancel_left h)
      · simp only [if_neg hd, if_neg hl] at h
        exact string_append_cancel_left (string_append_cancel_left h)
  · intro h
    rw [h]

theorem makeCorruptDBPath_lookup (fs : FS) (p : String) (c : List Nat)
    (h : fsLookup fs p = some c) :
    makeCorruptDBPath fs p =
      Except.ok (joinPath (splitPath p).1
        ((splitPath p).2 ++ ".corrupt." ++ base64RawStd ((sha1 c).take 8))) := by
  simp [makeCorruptDBPath, shaFileID, h]

theorem rebuildLoop_quit_now (env : RebuildEnv) (hist : List Nat) (i fuel : Nat)
    (hq : env.quit i = true) :
    rebuildLoop env hist i (fuel + 1) = (hist, none, [REv.quitCheck i]) := by
  simp [rebuildLoop, hq]

theorem rebuildLoop_step (env : RebuildEnv) (hist : List Nat) (i fuel : Nat)
    (hq : env.quit i = false) (hf : env.fetchErr i = none) (hp : env.parseErr i = none)
    (hi : i < env.chain.length) :
    rebuildLoop env hist i (fuel + 1) =
      (match rebuildLoop env (hist ++ [env.chain[i]]) (i + 1) fuel with
       | (h, r, evs) => (h, r, REv.quitCheck i :: REv.fetch i :: REv.parse i :: evs)) := by
  simp [rebuildLoop, hq, hf, hp, List.getElem?_eq_getElem hi]

theorem take_drop_cons (l : List Nat) (i n : Nat) (hi : i < l.length) :
    (l.drop i).take (n + 1) = l[i] :: (l.drop (i + 1)).take n := by
  rw [List.drop_eq_getElem_cons hi]
  rfl

theorem rebuildLoop_cancel (env : RebuildEnv) :
    ∀ (m fuel i : Nat) (hist : List Nat), m < fuel → i + m ≤ env.chain.length →
      (∀ j, i ≤ j → j < i + m →
        env.quit j = false ∧ env.fetchErr j = none ∧ env.parseErr j = none) →
      env.quit (i + m) = true →
      rebuildLoop env hist i fuel =
        (hist ++ (env.chain.drop i).take m, none,
         stepsTrace i m ++ [REv.quitCheck (i + m)]) := by
  intro m
  induction m with
  | zero =>
    intro fuel i hist hm hlen hclear hq
    obtain ⟨f, rfl⟩ : ∃ f, fuel = f + 1 := ⟨fuel - 1, by omega⟩
    rw [rebuildLoop_quit_now env hist i f (by simpa using hq)]
    simp [stepsTrace]
  | succ n ih =>
    intro fuel i hist hm hlen hclear hq
    obtain ⟨f, rfl⟩ : ∃ f, fuel = f + 1 := ⟨fuel - 1, by omega⟩
    have hc := hclear i le_rfl (by omega)
    have hi : i < env.chain.length := by omega
    rw [rebuildLoop_step env hist i f hc.1 hc.2.1 hc.2.2 hi]
    have hrec := ih f (i + 1) (hist ++ [env.chain[i]]) (by omega) (by omega)
      (fun j h1 h2 => hclear j (by omega) (by omega))
      (by rw [show i + 1 + n = i + (n + 1) by omega]; exact hq)
    rw [hrec]
    rw [List.append_assoc, show i + 1 + n = i + (n + 1) by omega,
        take_drop_cons env.chain i n hi]
    simp [stepsTrace]

theorem rebuildLoop_clean (env : RebuildEnv) :
    ∀ (n i : Nat) (hist : List Nat), i + n ≤ env.chain.length →
      (∀ j, i ≤ j → j < i + n →
        env.quit j = false ∧ env.fetchErr j = none ∧ env.parseErr j = none) →
      rebuildLoop env hist i n =
        (hist ++ (env.chain.drop i).take n, none, stepsTrace i n) := by
  intro n
  induction n with
  | zero =>
    intro i hist hlen hclear
    simp [rebuildLoop, stepsTrace]
  | succ n ih =>
    intro i hist hlen hclear
    have hc := hclear i le_rfl (by omega)
    have hi : i < env.chain.length := by omega
    rw [rebuildLoop_step env hist i n hc.1 hc.2.1 hc.2.2 hi]
    have hrec := ih (i + 1) (hist ++ [env.chain[i]]) (by omega)
      (fun j h1 h2 => hclear j (by omega) (by omega))
    rw [hrec]
    rw [List.append_assoc, take_drop_cons env.chain i n hi]
    simp [stepsTrace]

theorem fsLookup_fsErase (fs : FS) (p q : String) :
    fsLookup (fsErase fs p) q = if p = q then none else fsLookup fs q := by
  induction fs with
  | nil => simp [fsErase, fsLookup]
  | cons e t ih =>
    obtain ⟨a, b⟩ := e
    by_cases ha : a = p
    · have h1 : fsErase ((a, b) :: t) p = fsErase t p := by
        simp [fsErase, List.filter_cons, ha]
      rw [h1, ih]
      by_cases hpq : p = q
      · simp [hpq]
      · have haq : ¬(a = q) := fun h => hpq (ha.symm.trans h)
        simp [hpq, fsLookup, haq]
    · have h1 : fsErase ((a, b) :: t) p = (a, b) :: fsErase t p := by
        simp [fsErase, List.filter_cons, ha]
      rw [h1]
      by_cases haq : a = q
      · have hpq : ¬(p = q) := fun h => ha (haq.trans h.symm)
        simp [fsLookup, haq, hpq]
      · simp [fsLookup, haq, ih]

theorem fsLookup_fsInsert_self (fs : FS) (p : String) (c : List Nat) :
    fsLookup (fsInsert fs p c) p = some c := by
  simp [fsInsert, fsLookup]

theorem fsLookup_fsInsert_ne (fs : FS) (p q : String) (c : List Nat) (h : ¬(p = q)) :
    fsLookup (fsInsert fs p c) q = fsLookup fs q := by
  simp [fsInsert, fsLookup, h, fsLookup_fsErase]

/-! ## Claim theorems -/

/-- Claim C1: for every walk result of `CheckDatabase`, a
missing/invalid-signature fault is classified fatal and returned wrapped as
`ErrCorruptDB`; a derived-index inconsistency fault triggers the rebuild
path; and every other non-nil error is returned to the caller unchanged,
with no rebuild reached (and `CheckDatabase` performs no quarantine
operation at all). -/
theorem CheckDatabase_walk_classification :
    (∀ (env : CheckEnv) (m : String), env.viewErr = none → env.blocksBktExist = true →
      env.newBlockchainErr = none →
      env.walkResult = some (GoError.errMissingSignature m) →
      CheckDatabase env =
        (some (GoError.errCorruptDB (GoError.errMissingSignature m)),
         [CkEv.viewTx, CkEv.newBlockchain, CkEv.walkChain])) ∧
    (∀ (env : CheckEnv) (m : String), env.viewErr = none → env.blocksBktExist = true →
      env.newBlockchainErr = none →
      env.walkResult = some (GoError.errHistoryDBCorrupted m) →
      CkEv.rebuild ∈ (CheckDatabase env).2) ∧
    (∀ (env : CheckEnv) (e : GoError), env.viewErr = none → env.blocksBktExist = true →
      env.newBlockchainErr = none → env.walkResult = some e →
      (∀ m, e ≠ GoError.errMissingSignature m) →
      (∀ m, e ≠ GoError.errHistoryDBCorrupted m) →
      CheckDatabase env = (some e, [CkEv.viewTx, CkEv.newBlockchain, CkEv.walkChain])) := by
  refine ⟨?_, ?_, ?_⟩
  · intro env m hv hb hn hw
    simp [CheckDatabase, hv, hb, hn, hw]
  · intro env m hv hb hn hw
    simp [CheckDatabase, hv, hb, hn, hw]
  · intro env e hv hb hn hw hms hhc
    cases e <;> simp_all [CheckDatabase]

/-- Witness for C1: the three classifications at concrete environments. -/
theorem CheckDatabase_walk_classification_witness :
    CheckDatabase ⟨none, true, none, some (GoError.errMissingSignature "sig"), none⟩ =
      (some (GoError.errCorruptDB (GoError.errMissingSignature "sig")),
       [CkEv.viewTx, CkEv.newBlockchain, CkEv.walkChain]) ∧
    CkEv.rebuild ∈
      (CheckDatabase ⟨none, true, none, some (GoError.errHistoryDBCorrupted "hd"), none⟩).2 ∧
    CheckDatabase ⟨none, true, none, some (GoError.ioError "disk"), none⟩ =
      (some (GoError.ioError "disk"), [CkEv.viewTx, CkEv.newBlockchain, CkEv.walkChain]) := by
  refine ⟨CheckDatabase_walk_classification.1 _ "sig" rfl rfl rfl rfl,
          CheckDatabase_walk_classification.2.1 _ "hd" rfl rfl rfl rfl,
          CheckDatabase_walk_classification.2.2 _ _ rfl rfl rfl rfl ?_ ?_⟩
  · intro m h
    exact GoError.noConfusion h
  · intro m h
    exact GoError.noConfusion h

/-- Claim C3 (code bug exhibit): when the preliminary `db.View` read
transaction fails with an I/O error, `CheckDatabase` discards that error
(the source ignores `db.View`'s return value), leaves `blocksBktExist` at
its zero value, and silently reports success — contradicting the spec's rule
that every I/O error is fatal and surfaced. -/
theorem CheckDatabase_masks_view_error :
    (⟨some (GoError.ioError "begin tx: input-output error"), true, none, none, none⟩ :
        CheckEnv).viewErr = some (GoError.ioError "begin tx: input-output error") ∧
    CheckDatabase ⟨some (GoError.ioError "begin tx: input-output error"), true, none, none, none⟩ =
      (none, [CkEv.viewTx]) :=
  ⟨rfl, rfl⟩

/-- Claim C5: on a derived-index corruption result from the walk,
`CheckDatabase` blocks until the rebuild's single result is available (the
buffered send happens before `wg.Done`, which happens before `wg.Wait`
returns) and returns exactly that result: `nil` on success, the rebuild's
error on failure. -/
theorem CheckDatabase_awaits_rebuild :
    ∀ (env : CheckEnv) (m : String), env.viewErr = none → env.blocksBktExist = true →
      env.newBlockchainErr = none →
      env.walkResult = some (GoError.errHistoryDBCorrupted m) →
      (CheckDatabase env).1 = env.rebuildResult ∧
      CkEv.rebuild ∈ (CheckDatabase env).2 := by
  intro env m hv hb hn hw
  constructor
  · simp [CheckDatabase, hv, hb, hn, hw]
  · simp [CheckDatabase, hv, hb, hn, hw]

/-- Witness for C5: a successful and a failed rebuild, both returned verbatim. -/
theorem CheckDatabase_awaits_rebuild_witness :
    (CheckDatabase ⟨none, true, none, some (GoError.errHistoryDBCorrupted "hd"), none⟩).1 =
      none ∧
    (CheckDatabase ⟨none, true, none, some (GoError.errHistoryDBCorrupted "hd"),
      some (GoError.ioError "rebuild write failed")⟩).1 =
      some (GoError.ioError "rebuild write failed") :=
  ⟨(CheckDatabase_awaits_rebuild _ "hd" rfl rfl rfl rfl).1,
   (CheckDatabase_awaits_rebuild _ "hd" rfl rfl rfl rfl).1⟩

/-- Claim C6: when the primary block bucket does not exist, `CheckDatabase`
returns success immediately, having performed only the preliminary read
transaction: no blockchain construction, no chain walk, no verification. -/
theorem CheckDatabase_pristine_store :
    ∀ env : CheckEnv, env.viewErr = none → env.blocksBktExist = false →
      CheckDatabase env = (none, [CkEv.viewTx]) := by
  intro env hv hb
  simp [CheckDatabase, hv, hb]

/-- Witness for C6 at a concrete pristine store. -/
theorem CheckDatabase_pristine_store_witness :
    CheckDatabase ⟨none, false, none, none, none⟩ = (none, [CkEv.viewTx]) :=
  CheckDatabase_pristine_store _ rfl rfl

/-- Claim C7: the quarantine procedure records the handle's mode and path,
closes the handle (failing if close fails), computes the content fingerprint
of the closed file, renames the original to the quarantine path — failing
with the original file left in place and no new store opened if the rename
fails — and then opens a brand-new empty store at the original path with the
original read-only mode, in exactly that order. -/
theorem handleCorruptDB_steps :
    (∀ (db : DBHandle) (fs : FS) (env : HandleEnv) (e : GoError),
      env.closeErr = some e →
      handleCorruptDB db fs env =
        (none, some (GoError.newError ("Failed to close db: " ++ e.msg)), fs,
         [FsEv.closeDB])) ∧
    (∀ (db : DBHandle) (fs : FS) (env : HandleEnv) (c : List Nat) (e : GoError),
      env.closeErr = none → env.renameErr = some e → fsLookup fs db.path = some c →
      handleCorruptDB db fs env =
        (none, some (GoError.newError ("Failed to copy corrupted db: " ++ e.msg)), fs,
         [FsEv.closeDB, FsEv.digest, FsEv.renameFile])) ∧
    (∀ (db : DBHandle) (fs : FS) (env : HandleEnv) (c : List Nat) (qp : String),
      env.closeErr = none → env.renameErr = none → env.openErr = none →
      fsLookup fs db.path = some c → makeCorruptDBPath fs db.path = Except.ok qp →
      ¬(qp = db.path) →
      handleCorruptDB db fs env =
        (some { path := db.path, readOnly := db.readOnly }, none,
         fsInsert (fsInsert (fsErase fs db.path) qp c) db.path emptyStore,
         [FsEv.closeDB, FsEv.digest, FsEv.renameFile, FsEv.openDB]) ∧
      fsLookup (fsInsert (fsInsert (fsErase fs db.path) qp c) db.path emptyStore) qp =
        some c ∧
      fsLookup (fsInsert (fsInsert (fsErase fs db.path) qp c) db.path emptyStore)
          db.path = some emptyStore) := by
  refine ⟨?_, ?_, ?_⟩
  · intro db fs env e h
    simp [handleCorruptDB, h]
  · intro db fs env c e hc hr hl
    have hm := makeCorruptDBPath_lookup fs db.path c hl
    simp [handleCorruptDB, hc, moveCorruptDB, hm, osRename, hr]
  · intro db fs env c qp hc hr ho hl hm hne
    have hrn : osRename fs db.path qp none =
        Except.ok (fsInsert (fsErase fs db.path) qp c) := by
      simp [osRename, hl]
    have hlook2 : fsLookup (fsInsert (fsErase fs db.path) qp c) db.path = none := by
      rw [fsLookup_fsInsert_ne _ _ _ _ hne, fsLookup_fsErase]
      simp
    refine ⟨?_, ?_, ?_⟩
    · simp [handleCorruptDB, hc, moveCorruptDB, hm, hr, hrn, OpenDB, ho, hlook2]
    · rw [fsLookup_fsInsert_ne _ _ _ _ (fun h => hne h.symm), fsLookup_fsInsert_self]
    · rw [fsLookup_fsInsert_self]

/-- Witness for C7: the three scenarios at a concrete one-file store. -/
theorem handleCorruptDB_steps_witness :
    handleCorruptDB ⟨"data.db", true⟩ [("data.db", [0])]
        ⟨some (GoError.ioError "close failed"), none, none⟩ =
      (none, some (GoError.newError "Failed to close db: close failed"),
       [("data.db", [0])], [FsEv.closeDB]) ∧
    handleCorruptDB ⟨"data.db", true⟩ [("data.db", [0])]
        ⟨none, some (GoError.ioError "cross-device link"), none⟩ =
      (none, some (GoError.newError "Failed to copy corrupted db: cross-device link"),
       [("data.db", [0])], [FsEv.closeDB, FsEv.digest, FsEv.renameFile]) ∧
    handleCorruptDB ⟨"data.db", true⟩ [("data.db", [0])] ⟨none, none, none⟩ =
      (some ⟨"data.db", true⟩, none,
       [("data.db", []), ("data.db.corrupt.W6k8nbDP+T8", [0])],
       [FsEv.closeDB, FsEv.digest, FsEv.renameFile, FsEv.openDB]) := by
  refine ⟨handleCorruptDB_steps.1 _ _ _ (GoError.ioError "close failed") rfl,
          handleCorruptDB_steps.2.1 _ _ _ [0] (GoError.ioError "cross-device link")
            rfl rfl (by decide), ?_⟩
  have h := (handleCorruptDB_steps.2.2 ⟨"data.db", true⟩ [("data.db", [0])]
    ⟨none, none, none⟩ [0] "data.db.corrupt.W6k8nbDP+T8" rfl rfl rfl (by decide)
    (by set_option maxRecDepth 1000000 in decide) (by decide)).1
  rw [h]
  decide

/-- Claim C8: `ResetCorruptDB` returns the original handle with the store
untouched when the check succeeds; returns `(nil, err)` without quarantining
when the check fails with a non-`ErrCorruptDB` error; and runs the
quarantine-and-reopen path exactly on an `ErrCorruptDB` result. -/
theorem ResetCorruptDB_dispatch :
    (∀ (db : DBHandle) (fs : FS) (env : ResetEnv),
      (CheckDatabase env.check).1 = none →
      ResetCorruptDB db fs env = (some db, none, fs, [])) ∧
    (∀ (db : DBHandle) (fs : FS) (env : ResetEnv) (e : GoError),
      (CheckDatabase env.check).1 = some e →
      (∀ i, e ≠ GoError.errCorruptDB i) →
      ResetCorruptDB db fs env = (none, some e, fs, [])) ∧
    (∀ (db : DBHandle) (fs : FS) (env : ResetEnv) (i : GoError),
      (CheckDatabase env.check).1 = some (GoError.errCorruptDB i) →
      ResetCorruptDB db fs env = handleCorruptDB db fs env.handle) := by
  refine ⟨?_, ?_, ?_⟩
  · intro db fs env h
    simp [ResetCorruptDB, h]
  · intro db fs env e h hne
    cases e <;> simp_all [ResetCorruptDB]
  · intro db fs env i h
    simp [ResetCorruptDB, h]

/-- Witness for C8: the three dispatch outcomes at concrete inputs. -/
theorem ResetCorruptDB_dispatch_witness :
    ResetCorruptDB ⟨"data.db", false⟩ [("data.db", [7])]
        ⟨⟨none, false, none, none, none⟩, ⟨none, none, none⟩⟩ =
      (some ⟨"data.db", false⟩, none, [("data.db", [7])], []) ∧
    ResetCorruptDB ⟨"data.db", false⟩ [("data.db", [7])]
        ⟨⟨none, true, none, some (GoError.ioError "disk"), none⟩, ⟨none, none, none⟩⟩ =
      (none, some (GoError.ioError "disk"), [("data.db", [7])], []) ∧
    ResetCorruptDB ⟨"data.db", false⟩ [("data.db", [7])]
        ⟨⟨none, true, none, some (GoError.errMissingSignature "sig"), none⟩,
         ⟨some (GoError.ioError "close failed"), none, none⟩⟩ =
      handleCorruptDB ⟨"data.db", false⟩ [("data.db", [7])]
        ⟨some (GoError.ioError "close failed"), none, none⟩ := by
  refine ⟨ResetCorruptDB_dispatch.1 _ _ _ rfl,
          ResetCorruptDB_dispatch.2.1 _ _ _ (GoError.ioError "disk") rfl ?_,
          ResetCorruptDB_dispatch.2.2 _ _ _ (GoError.errMissingSignature "sig") rfl⟩
  intro i h
  exact GoError.noConfusion h

/-- Claim C2: the rebuild runs inside one write transaction and performs, in
order: erase the whole derived index; read the chain head sequence, failing
with an error when no head block exists (in which case the transaction rolls
back); then for each sequence `0..head` in strictly increasing order, check
the cancellation signal before the step — returning early without error on a
signal, which COMMITS the partially rebuilt index — and otherwise fetch the
signed block and feed it to the index builder. -/
theorem rebuildCorruptDB_steps :
    (∀ (env : RebuildEnv) (hist0 : List Nat), env.eraseErr = none →
      env.headSeqErr = none → env.chain = [] →
      rebuildCorruptDB env hist0 =
        (hist0, some (GoError.newError "head block does not exist"),
         [REv.erase, REv.headSeq])) ∧
    (∀ (env : RebuildEnv) (hist0 : List Nat) (k : Nat), env.eraseErr = none →
      env.headSeqErr = none → k < env.chain.length →
      (∀ j, j < k → env.quit j = false ∧ env.fetchErr j = none ∧ env.parseErr j = none) →
      env.quit k = true →
      rebuildCorruptDB env hist0 =
        (env.chain.take k, none,
         REv.erase :: REv.headSeq :: (stepsTrace 0 k ++ [REv.quitCheck k]))) ∧
    (∀ (env : RebuildEnv) (hist0 : List Nat), env.eraseErr = none →
      env.headSeqErr = none → env.chain ≠ [] →
      (∀ j, j < env.chain.length →
        env.quit j = false ∧ env.fetchErr j = none ∧ env.parseErr j = none) →
      rebuildCorruptDB env hist0 =
        (env.chain, none, REv.erase :: REv.headSeq :: stepsTrace 0 env.chain.length)) := by
  refine ⟨?_, ?_, ?_⟩
  · intro env hist0 he hh hc
    simp [rebuildCorruptDB, rebuildBody, he, hh, hc]
  · intro env hist0 k he hh hk hclear hq
    have hne : env.chain.isEmpty = false := by
      cases hc : env.chain with
      | nil => rw [hc] at hk; simp at hk
      | cons a t => simp
    have hfuel : env.chain.length - 1 + 1 = env.chain.length := by omega
    have hloop := rebuildLoop_cancel env k (env.chain.length - 1 + 1) 0 []
      (by omega) (by omega)
      (fun j h1 h2 => hclear j (by omega)) (by simpa using hq)
    unfold rebuildCorruptDB rebuildBody
    rw [he, hh]
    simp only [hne, Bool.false_eq_true, if_false, hloop]
    simp
  · intro env hist0 he hh hc hclear
    have hne : env.chain.isEmpty = false := by
      cases hcc : env.chain with
      | nil => exact absurd hcc hc
      | cons a t => simp
    have hfuel : env.chain.length - 1 + 1 = env.chain.length := by
      have : env.chain.length ≠ 0 := by
        intro h0
        exact hc (List.length_eq_zero.mp h0)
      omega
    have hloop := rebuildLoop_clean env env.chain.length 0 []
      (by omega) (fun j h1 h2 => hclear j (by omega))
    unfold rebuildCorruptDB rebuildBody
    rw [he, hh]
    simp only [hne, Bool.false_eq_true, if_false, hfuel, hloop]
    simp

/-- Witness for C2: the empty-chain failure, a cancellation after two of
three blocks that commits the partial index with no error, and a full
uncancelled run, all at concrete inputs. -/
theorem rebuildCorruptDB_steps_witness :
    rebuildCorruptDB ⟨[], none, none, fun _ => none, fun _ => none, fun _ => false⟩ [9] =
      ([9], some (GoError.newError "head block does not exist"),
       [REv.erase, REv.headSeq]) ∧
    rebuildCorruptDB
        ⟨[10, 20, 30], none, none, fun _ => none, fun _ => none, fun i => i == 2⟩ [9] =
      ([10, 20], none,
       [REv.erase, REv.headSeq, REv.quitCheck 0, REv.fetch 0, REv.parse 0,
        REv.quitCheck 1, REv.fetch 1, REv.parse 1, REv.quitCheck 2]) ∧
    rebuildCorruptDB
        ⟨[10, 20], none, none, fun _ => none, fun _ => none, fun _ => false⟩ [9] =
      ([10, 20], none,
       [REv.erase, REv.headSeq, REv.quitCheck 0, REv.fetch 0, REv.parse 0,
        REv.quitCheck 1, REv.fetch 1, REv.parse 1]) := by
  refine ⟨rebuildCorruptDB_steps.1 _ [9] rfl rfl rfl, ?_, ?_⟩
  · exact rebuildCorruptDB_steps.2.1
      ⟨[10, 20, 30], none, none, fun _ => none, fun _ => none, fun i => i == 2⟩
      [9] 2 rfl rfl (by decide) (by decide) rfl
  · exact rebuildCorruptDB_steps.2.2
      ⟨[10, 20], none, none, fun _ => none, fun _ => none, fun _ => false⟩
      [9] rfl rfl (by decide) (by decide)

/-- Claim C4 (counterexample): the quarantine fingerprint is NOT the
URL/path-safe base64 encoding of the truncated SHA-1 digest: the source uses
`base64.RawStdEncoding` (standard alphabet).  For the one-byte file `[0]`
the two encodings disagree, because the digest prefix encodes a 62 value,
rendered `+` by the standard alphabet and `-` by the URL-safe one. -/
theorem shaFileID_not_urlSafe :
    shaFileID [("data.db", [0])] "data.db" = Except.ok "W6k8nbDP+T8" ∧
    shaFileIDSpec [("data.db", [0])] "data.db" = Except.ok "W6k8nbDP-T8" ∧
    shaFileID [("data.db", [0])] "data.db" ≠ shaFileIDSpec [("data.db", [0])] "data.db" := by
  set_option maxRecDepth 1000000 in decide

/-- Claim C4 (amended): the quarantine fingerprint equals the base64
standard-alphabet (`RawStdEncoding`), unpadded encoding of the first 8 bytes
of the SHA-1 digest of the full file contents, and the quarantine file name
is `<original-filename>.corrupt.<fingerprint>` in the same directory as the
original. -/
theorem makeCorruptDBPath_fingerprint :
    ∀ (fs : FS) (p : String) (c : List Nat), fsLookup fs p = some c →
      shaFileID fs p = Except.ok (base64RawStd ((sha1 c).take 8)) ∧
      makeCorruptDBPath fs p =
        Except.ok (joinPath (splitPath p).1
          ((splitPath p).2 ++ ".corrupt." ++ base64RawStd ((sha1 c).take 8))) := by
  intro fs p c h
  exact ⟨by simp [shaFileID, h], makeCorruptDBPath_lookup fs p c h⟩

/-- Witness for amended C4 at a concrete file in a subdirectory. -/
theorem makeCorruptDBPath_fingerprint_witness :
    makeCorruptDBPath [("dir/data.db", [1])] "dir/data.db" =
      Except.ok "dir/data.db.corrupt.v4tFMNjSRt0" := by
  have h := (makeCorruptDBPath_fingerprint [("dir/data.db", [1])] "dir/data.db" [1]
    (by decide)).2
  rw [h]
  set_option maxRecDepth 1000000 in decide

/-- Claim C9: quarantine naming is deterministic — the name computed for a
path depends only on the path and the file's bytes — and distinguishes two
corrupted files that share a filename exactly when their truncated-digest
fingerprints differ; the exhibited pair of distinct one-byte contents yields
two different quarantine filenames. -/
theorem makeCorruptDBPath_deterministic :
    (∀ (p : String) (c : List Nat) (fs1 fs2 : FS),
      fsLookup fs1 p = some c → fsLookup fs2 p = some c →
      makeCorruptDBPath fs1 p = makeCorruptDBPath fs2 p) ∧
    (∀ (p : String) (c1 c2 : List Nat) (fs1 fs2 : FS),
      fsLookup fs1 p = some c1 → fsLookup fs2 p = some c2 →
      (makeCorruptDBPath fs1 p = makeCorruptDBPath fs2 p ↔
        base64RawStd ((sha1 c1).take 8) = base64RawStd ((sha1 c2).take 8))) ∧
    makeCorruptDBPath [("data.db", [0])] "data.db" ≠
      makeCorruptDBPath [("data.db", [1])] "data.db" := by
  refine ⟨?_, ?_, ?_⟩
  · intro p c fs1 fs2 h1 h2
    rw [makeCorruptDBPath_lookup fs1 p c h1, makeCorruptDBPath_lookup fs2 p c h2]
  · intro p c1 c2 fs1 fs2 h1 h2
    rw [makeCorruptDBPath_lookup fs1 p c1 h1, makeCorruptDBPath_lookup fs2 p c2 h2]
    simp only [Except.ok.injEq]
    exact joinPath_suffix_inj _ _ _ _
  · set_option maxRecDepth 1000000 in decide

/-- Witness for C9: determinism and fingerprint-dependence at concrete
files. -/
theorem makeCorruptDBPath_deterministic_witness :
    makeCorruptDBPath [("data.db", [0])] "data.db" =
      makeCorruptDBPath [("data.db", [0]), ("other.db", [5])] "data.db" ∧
    (makeCorruptDBPath [("data.db", [0])] "data.db" =
        makeCorruptDBPath [("data.db", [1])] "data.db" ↔
      base64RawStd ((sha1 [0]).take 8) = base64RawStd ((sha1 [1]).take 8)) :=
  ⟨makeCorruptDBPath_deterministic.1 "data.db" [0] _ _ (by decide) (by decide),
   makeCorruptDBPath_deterministic.2.1 "data.db" [0] [1] _ _ (by decide) (by decide)⟩

/-- Claim C10: for every finite sequence of `Store` calls on a fresh
tracker, `BlockSeqs` returns exactly the distinct stored sequence numbers,
each once (duplicates have no further effect), and a fresh tracker yields
the empty result. -/
theorem corruptedBlocks_BlockSeqs_spec :
    newCorruptedBlocks.BlockSeqs = [] ∧
    ∀ l : List Nat, (storeAll newCorruptedBlocks l).BlockSeqs.Nodup ∧
      ∀ x : Nat, x ∈ (storeAll newCorruptedBlocks l).BlockSeqs ↔ x ∈ l := by
  refine ⟨rfl, fun l =>
    ⟨storeAll_nodup l newCorruptedBlocks (by simp [newCorruptedBlocks]), fun x => ?_⟩⟩
  rw [corruptedBlocks.BlockSeqs, storeAll_mem]
  simp [newCorruptedBlocks]

end SkycoinDB
